import Mathlib

/-!
Shallow embedding of the core game logic in
`src/src/components/flappy-bird.tsx` (component `FlappyBird`).

Numbers of the source (JavaScript numbers) are modelled as rationals;
`score`, `highScore` and the frame counter are natural numbers. The React
state cells (`gameState`, `score`, `highScore`, `bird`, `pipes`,
`frameCountRef`) are gathered into one `Game` record, and each entry point
of the component (`gameLoop`, `jump`, `resetGame`) becomes a function on
`Game`. The call to `Math.random()` inside `generatePipe` is modelled by
an explicit rational argument `r`. The screen dimensions obtained from
`useWindowDimensions` are passed as explicit arguments `w` and `h`.

Within one `gameLoop` call the source queues functional state updates:
first the bird updater (which, on collision, also sets the game state,
updates the high score against the pre-tick `score`, and returns the
previous bird), then the pipes updater (advance, filter, spawn, scoring),
which runs unconditionally; the scoring comparison reads the pre-tick
`bird.x` from the enclosing scope. `gameLoop` below commits all of these
effects of one tick in that order.
-/

/-- Source line 26: `const GRAVITY = 0.8`. -/
def GRAVITY : ℚ := 4 / 5

/-- Source line 27: `const JUMP_FORCE = -12`. -/
def JUMP_FORCE : ℚ := -12

/-- Source line 28: `const PIPE_WIDTH = 60`. -/
def PIPE_WIDTH : ℚ := 60

/-- Source line 29: `const PIPE_GAP = 200`. -/
def PIPE_GAP : ℚ := 200

/-- Source line 30: `const BIRD_SIZE = 30`. -/
def BIRD_SIZE : ℚ := 30

/-- Source line 31: `const GAME_SPEED = 3`. -/
def GAME_SPEED : ℚ := 3

/-- Source lines 13-17: interface `Bird`. -/
structure Bird where
  x : ℚ
  y : ℚ
  velocityY : ℚ
deriving DecidableEq

/-- Source lines 19-24: interface `Pipe`. -/
structure Pipe where
  x : ℚ
  topHeight : ℚ
  bottomY : ℚ
  scored : Bool
deriving DecidableEq

/-- Source line 37: the three values of the `gameState` state cell. -/
inductive GameState where
  | waiting
  | playing
  | gameOver
deriving DecidableEq

/-- The combined React state of the component: `gameState`, `score`,
`highScore`, `bird`, `pipes` (source lines 37-47) and the mutable
`frameCountRef` (source line 50). -/
structure Game where
  gameState : GameState
  score : ℕ
  highScore : ℕ
  bird : Bird
  pipes : List Pipe
  frameCount : ℕ
deriving DecidableEq

/-- Source lines 41-47: initial `useState` values (`bird` starts at
`x = 100`, `y = screenHeight / 2`, zero velocity; empty pipe list;
scores zero; frame counter zero; state `waiting`). -/
def initGame (h : ℚ) : Game :=
  { gameState := GameState.waiting
    score := 0
    highScore := 0
    bird := { x := 100, y := h / 2, velocityY := 0 }
    pipes := []
    frameCount := 0 }

/-- Source lines 69-79: `resetGame` — back to `waiting`, score 0, initial
bird, no pipes, frame counter 0; `highScore` is not touched. -/
def resetGame (h : ℚ) (g : Game) : Game :=
  { gameState := GameState.waiting
    score := 0
    highScore := g.highScore
    bird := { x := 100, y := h / 2, velocityY := 0 }
    pipes := []
    frameCount := 0 }

/-- Source lines 58-67: `jump` — in `waiting` start playing and set the
vertical velocity to `JUMP_FORCE`; in `playing` set the velocity only;
in `gameOver` call `resetGame`. -/
def jump (h : ℚ) (g : Game) : Game :=
  match g.gameState with
  | GameState.waiting =>
      { g with gameState := GameState.playing
               bird := { g.bird with velocityY := JUMP_FORCE } }
  | GameState.playing =>
      { g with bird := { g.bird with velocityY := JUMP_FORCE } }
  | GameState.gameOver => resetGame h g

/-- Source lines 81-92: `generatePipe` — the gap top edge is drawn as
`r * (maxHeight - minHeight) + minHeight` where `minHeight = 50` and
`maxHeight = screenHeight - PIPE_GAP - minHeight - 100`; the pipe starts
at `x = screenWidth` with `bottomY = topHeight + PIPE_GAP`, unscored. -/
def generatePipe (w h r : ℚ) : Pipe :=
  let minHeight : ℚ := 50
  let maxHeight : ℚ := h - PIPE_GAP - minHeight - 100
  let topHeight : ℚ := r * (maxHeight - minHeight) + minHeight
  { x := w, topHeight := topHeight, bottomY := topHeight + PIPE_GAP, scored := false }

/-- Source lines 94-121: `checkCollision` — ground test
`bird.y > screenHeight - 100 - BIRD_SIZE`, ceiling test `bird.y < 0`,
then for each pipe the horizontal test
`bird.x + BIRD_SIZE > pipe.x && bird.x < pipe.x + PIPE_WIDTH` combined
with the vertical test `bird.y < pipe.topHeight || bird.y + BIRD_SIZE >
pipe.bottomY`. -/
def checkCollision (h : ℚ) (b : Bird) (ps : List Pipe) : Bool :=
  if b.y > h - 100 - BIRD_SIZE then
    true
  else if b.y < 0 then
    true
  else
    ps.any fun p =>
      (decide (b.x + BIRD_SIZE > p.x) && decide (b.x < p.x + PIPE_WIDTH)) &&
        (decide (b.y < p.topHeight) || decide (b.y + BIRD_SIZE > p.bottomY))

/-- Source lines 128-133: the bird updater computes
`y = prev.y + prev.velocityY` and `velocityY = prev.velocityY + GRAVITY`
(the position update reads the previous, pre-gravity velocity). -/
def newBirdOf (b : Bird) : Bird :=
  { b with y := b.y + b.velocityY, velocityY := b.velocityY + GRAVITY }

/-- Source line 148: every pipe is shifted left by `GAME_SPEED`. -/
def movedPipes (ps : List Pipe) : List Pipe :=
  ps.map fun p => { p with x := p.x - GAME_SPEED }

/-- Source line 151: keep the pipes with `pipe.x > -PIPE_WIDTH`. -/
def keptPipes (ps : List Pipe) : List Pipe :=
  (movedPipes ps).filter fun p => decide (p.x > -PIPE_WIDTH)

/-- Source lines 153-156: after moving and filtering, push one freshly
generated pipe when the (already incremented) frame counter is divisible
by 100. -/
def pipesAfterSpawn (w h r : ℚ) (fc : ℕ) (ps : List Pipe) : List Pipe :=
  if fc % 100 = 0 then keptPipes ps ++ [generatePipe w h r] else keptPipes ps

/-- Source lines 159-164: the scoring pass over one pipe — when the pipe
is unscored and `pipe.x + PIPE_WIDTH < bird.x`, mark it scored and emit
one point, otherwise leave it alone. -/
def scorePipe (birdX : ℚ) (p : Pipe) : Pipe × ℕ :=
  if !p.scored && decide (p.x + PIPE_WIDTH < birdX) then
    ({ p with scored := true }, 1)
  else
    (p, 0)

/-- Source lines 123-170: one `gameLoop` call. If the state is not
`playing` nothing happens (line 124). Otherwise the frame counter is
incremented (line 126), the new bird is computed (lines 128-133), and
collision is checked against the pre-advance pipes (line 136): on
collision the state becomes `gameOver`, the high score is raised to the
pre-tick score when that score beats it (lines 137-140), and the bird
keeps its previous value (line 141); without collision the new bird is
committed. The pipes updater (lines 147-167) runs in either case:
advance, filter, spawn, and the scoring pass against the pre-tick
`bird.x`. -/
def gameLoop (w h r : ℚ) (g : Game) : Game :=
  if g.gameState ≠ GameState.playing then
    g
  else
    let fc := g.frameCount + 1
    let nb := newBirdOf g.bird
    let post := pipesAfterSpawn w h r fc g.pipes
    let pairs := post.map (scorePipe g.bird.x)
    let newPipes := pairs.map Prod.fst
    let deltaScore := (pairs.map Prod.snd).sum
    if checkCollision h nb g.pipes then
      { g with gameState := GameState.gameOver
               highScore := if g.score > g.highScore then g.score else g.highScore
               pipes := newPipes
               score := g.score + deltaScore
               frameCount := fc }
    else
      { g with bird := nb
               pipes := newPipes
               score := g.score + deltaScore
               frameCount := fc }

/-- The discrete inputs the component reacts to: an animation frame
(`tick`, carrying the random draw used by a possible spawn), a tap
(`activate`, source `jump`), and the Play Again button (`reset`, source
`resetGame`). -/
inductive Event where
  | tick (r : ℚ)
  | activate
  | reset
deriving DecidableEq

/-- One event applied to the state. -/
def step (w h : ℚ) (g : Game) (e : Event) : Game :=
  match e with
  | Event.tick r => gameLoop w h r g
  | Event.activate => jump h g
  | Event.reset => resetGame h g

/-- A whole run: a list of events applied in order. -/
def runEvents (w h : ℚ) (g : Game) (es : List Event) : Game :=
  es.foldl (step w h) g

/-! Concrete states used by counterexamples and witnesses. -/

/-- A playing state with no pipes, safely away from ground and ceiling. -/
def gC1 : Game :=
  { gameState := GameState.playing
    score := 0
    highScore := 0
    bird := { x := 100, y := 100, velocityY := 0 }
    pipes := []
    frameCount := 0 }

/-- C1 (claim as stated is false): on a playing, non-colliding tick the
committed position is NOT `position + velocity*`, where `velocity*` is
the newly computed velocity: starting from `y = 100`, `velocityY = 0`,
the code commits `y = 100` while the claim predicts `100 + GRAVITY`. -/
theorem C1_counterexample :
    gC1.gameState = GameState.playing
    ∧ checkCollision 600 (newBirdOf gC1.bird) gC1.pipes = false
    ∧ (gameLoop 400 600 0 gC1).bird.velocityY = gC1.bird.velocityY + GRAVITY
    ∧ (gameLoop 400 600 0 gC1).bird.y
        ≠ gC1.bird.y + (gameLoop 400 600 0 gC1).bird.velocityY := by
  with_unfolding_all decide

/-- C1 (amended): on every playing, non-colliding tick the integrator
performs an explicit Euler step: the committed position is the old
position plus the OLD velocity, and the committed velocity is the old
velocity plus `GRAVITY`; both equalities are exact (no clamping). -/
theorem C1_theorem (w h r : ℚ) (g : Game)
    (hplay : g.gameState = GameState.playing)
    (hnc : checkCollision h (newBirdOf g.bird) g.pipes = false) :
    (gameLoop w h r g).bird.velocityY = g.bird.velocityY + GRAVITY
    ∧ (gameLoop w h r g).bird.y = g.bird.y + g.bird.velocityY := by
  simp [gameLoop, hplay, hnc]
  simp [newBirdOf]

/-- Witness for `C1_theorem` at the concrete state `gC1`. -/
theorem C1_witness :
    (gameLoop 400 600 0 gC1).bird.velocityY = gC1.bird.velocityY + GRAVITY
    ∧ (gameLoop 400 600 0 gC1).bird.y = gC1.bird.y + gC1.bird.velocityY :=
  C1_theorem 400 600 0 gC1 rfl (by with_unfolding_all decide)

/-- A playing state about to hit the ground (new `y` would be 500 with
`h = 600`, past the ground line 470), with one pipe at `x = 200`. -/
def gC2 : Game :=
  { gameState := GameState.playing
    score := 0
    highScore := 0
    bird := { x := 100, y := 500, velocityY := 0 }
    pipes := [{ x := 200, topHeight := 50, bottomY := 250, scored := false }]
    frameCount := 0 }

/-- C2 (claim as stated is false): on a colliding tick the phase does
become `gameOver`, but the obstacle stream is NOT left as if only the
collision branch executed — the pipe at `x = 200` has been advanced. -/
theorem C2_counterexample :
    gC2.gameState = GameState.playing
    ∧ checkCollision 600 (newBirdOf gC2.bird) gC2.pipes = true
    ∧ (gameLoop 400 600 0 gC2).gameState = GameState.gameOver
    ∧ (gameLoop 400 600 0 gC2).pipes ≠ gC2.pipes := by
  with_unfolding_all decide

/-- C2 (amended): on a colliding playing tick the phase transitions to
`gameOver` and the body keeps its pre-tick value (the integrated position
is not committed), but the obstacle-stream advance, removal, spawn and
the scorer still run, exactly as they would on any tick with the same
pipes, score and frame counter: the resulting pipes, score and frame
counter do not depend on the vertical position or velocity of the bird at
all. -/
theorem C2_theorem (w h r y2 v2 : ℚ) (g : Game)
    (hplay : g.gameState = GameState.playing)
    (hcol : checkCollision h (newBirdOf g.bird) g.pipes = true) :
    (gameLoop w h r g).gameState = GameState.gameOver
    ∧ (gameLoop w h r g).bird = g.bird
    ∧ (gameLoop w h r g).pipes
        = (gameLoop w h r { g with bird := ⟨g.bird.x, y2, v2⟩ }).pipes
    ∧ (gameLoop w h r g).score
        = (gameLoop w h r { g with bird := ⟨g.bird.x, y2, v2⟩ }).score
    ∧ (gameLoop w h r g).frameCount
        = (gameLoop w h r { g with bird := ⟨g.bird.x, y2, v2⟩ }).frameCount := by
  refine ⟨by simp [gameLoop, hplay, hcol], by simp [gameLoop, hplay, hcol], ?_, ?_, ?_⟩ <;>
    · by_cases h2 : checkCollision h (newBirdOf (⟨g.bird.x, y2, v2⟩ : Bird)) g.pipes = true <;>
        simp [gameLoop, hplay, hcol, h2]

/-- Witness for `C2_theorem` at the concrete state `gC2`. -/
theorem C2_witness :
    (gameLoop 400 600 0 gC2).gameState = GameState.gameOver
    ∧ (gameLoop 400 600 0 gC2).bird = gC2.bird
    ∧ (gameLoop 400 600 0 gC2).pipes
        = (gameLoop 400 600 0 { gC2 with bird := ⟨gC2.bird.x, 100, 0⟩ }).pipes
    ∧ (gameLoop 400 600 0 gC2).score
        = (gameLoop 400 600 0 { gC2 with bird := ⟨gC2.bird.x, 100, 0⟩ }).score
    ∧ (gameLoop 400 600 0 gC2).frameCount
        = (gameLoop 400 600 0 { gC2 with bird := ⟨gC2.bird.x, 100, 0⟩ }).frameCount :=
  C2_theorem 400 600 0 100 0 gC2 rfl (by with_unfolding_all decide)

/-- Two half-open intervals overlap exactly when each left end is below
the other right end. -/
lemma interval_overlap_iff (a wa c wb : ℚ) (ha : 0 < wa) (hb : 0 < wb) :
    (∃ t : ℚ, (a ≤ t ∧ t < a + wa) ∧ (c ≤ t ∧ t < c + wb))
      ↔ (c + wb > a ∧ c < a + wa) := by
  constructor
  · rintro ⟨t, ⟨h1, h2⟩, ⟨h3, h4⟩⟩
    constructor <;> linarith
  · rintro ⟨h1, h2⟩
    refine ⟨max a c, ⟨le_max_left a c, ?_⟩, ⟨le_max_right a c, ?_⟩⟩
    · exact max_lt (by linarith) h2
    · exact max_lt h1 (by linarith)

/-- C3: `checkCollision` returns `true` exactly when the bird is past the
ground line `h - 100 - BIRD_SIZE`, above the ceiling (`y < 0`) — both
tests independent of the pipes — or some pipe whose half-open horizontal
span `[x, x + PIPE_WIDTH)` overlaps the bird span `[bird.x, bird.x +
BIRD_SIZE)` has the bird outside its gap (`y < topHeight` or `y +
BIRD_SIZE > bottomY`). -/
theorem C3_theorem (h : ℚ) (b : Bird) (ps : List Pipe) :
    checkCollision h b ps = true
      ↔ b.y > h - 100 - BIRD_SIZE
        ∨ b.y < 0
        ∨ ∃ p ∈ ps,
            (∃ t : ℚ, (p.x ≤ t ∧ t < p.x + PIPE_WIDTH)
              ∧ (b.x ≤ t ∧ t < b.x + BIRD_SIZE))
            ∧ (b.y < p.topHeight ∨ b.y + BIRD_SIZE > p.bottomY) := by
  have hw : (0 : ℚ) < PIPE_WIDTH := by norm_num [PIPE_WIDTH]
  have hs : (0 : ℚ) < BIRD_SIZE := by norm_num [BIRD_SIZE]
  unfold checkCollision
  split_ifs with hg hc
  · simp only [true_iff]
    exact Or.inl hg
  · simp only [true_iff]
    exact Or.inr (Or.inl hc)
  · simp only [List.any_eq_true, Bool.and_eq_true, Bool.or_eq_true,
      decide_eq_true_eq]
    constructor
    · rintro ⟨p, hp, ⟨hh1, hh2⟩, hv⟩
      refine Or.inr (Or.inr ⟨p, hp, ?_, hv⟩)
      exact (interval_overlap_iff p.x PIPE_WIDTH b.x BIRD_SIZE hw hs).mpr
        ⟨by linarith, by linarith⟩
    · rintro (hgr | hcl | ⟨p, hp, hov, hv⟩)
      · exact absurd hgr hg
      · exact absurd hcl hc
      · obtain ⟨h1, h2⟩ :=
          (interval_overlap_iff p.x PIPE_WIDTH b.x BIRD_SIZE hw hs).mp hov
        exact ⟨p, hp, ⟨by linarith, by linarith⟩, hv⟩

/-- The total number of points emitted by one scoring pass is the number
of unscored pipes whose trailing edge is past `bx`. -/
lemma sum_snd_scorePipe (bx : ℚ) (ps : List Pipe) :
    (ps.map (Prod.snd ∘ scorePipe bx)).sum
      = (ps.filter fun q => !q.scored && decide (q.x + PIPE_WIDTH < bx)).length := by
  induction ps with
  | nil => rfl
  | cons p ps ih =>
    by_cases hc : (!p.scored && decide (p.x + PIPE_WIDTH < bx)) = true
    · simp only [List.map_cons, List.sum_cons, List.filter_cons, hc, if_pos,
        List.length_cons, Function.comp_apply, scorePipe, if_true]
      omega
    · simp [scorePipe, hc, ih]

/-- A playing state with one already-passed, unscored pipe: after the
advance the pipe sits at `x = 27` with `27 + 60 < 100`, so it scores. -/
def gC4 : Game :=
  { gameState := GameState.playing
    score := 0
    highScore := 0
    bird := { x := 100, y := 100, velocityY := 0 }
    pipes := [{ x := 30, topHeight := 50, bottomY := 250, scored := false }]
    frameCount := 0 }

/-- C4: on every playing tick the score grows by exactly the number of
pipes (in the advanced, filtered, possibly spawned sequence) that are
unscored and whose trailing edge `x + PIPE_WIDTH` is strictly below the
fixed bird abscissa; one scoring pass marks exactly those pipes scored;
an already scored pipe is left unchanged and emits no further point, so
each pipe scores at most once over its lifetime. -/
theorem C4_theorem (w h r bx : ℚ) (g : Game) (p : Pipe)
    (hplay : g.gameState = GameState.playing) :
    (gameLoop w h r g).score
      = g.score + ((pipesAfterSpawn w h r (g.frameCount + 1) g.pipes).filter
          fun q => !q.scored && decide (q.x + PIPE_WIDTH < g.bird.x)).length
    ∧ (scorePipe bx p).1.scored = (p.scored || decide (p.x + PIPE_WIDTH < bx))
    ∧ (p.scored = false → p.x + PIPE_WIDTH < bx →
        scorePipe bx p = ({ p with scored := true }, 1))
    ∧ (p.scored = true → scorePipe bx p = (p, 0))
    ∧ (¬ p.x + PIPE_WIDTH < bx → scorePipe bx p = (p, 0)) := by
  refine ⟨?_, ?_, ?_, ?_, ?_⟩
  · by_cases hcol : checkCollision h (newBirdOf g.bird) g.pipes = true <;>
      simp [gameLoop, hplay, hcol, sum_snd_scorePipe]
  · by_cases h1 : p.scored <;> by_cases h2 : p.x + PIPE_WIDTH < bx <;>
      simp [scorePipe, h1, h2]
  · intro h1 h2
    simp [scorePipe, h1, h2]
  · intro h1
    simp [scorePipe, h1]
  · intro h2
    by_cases h1 : p.scored <;> simp [scorePipe, h1, h2]

/-- Witness for `C4_theorem` at the concrete state `gC4`. -/
theorem C4_witness :
    (gameLoop 400 600 0 gC4).score
      = gC4.score + ((pipesAfterSpawn 400 600 0 (gC4.frameCount + 1) gC4.pipes).filter
          fun q => !q.scored && decide (q.x + PIPE_WIDTH < gC4.bird.x)).length :=
  (C4_theorem 400 600 0 0 gC4 { x := 0, topHeight := 0, bottomY := 0, scored := false }
    rfl).1

/-- A game-over state with nonzero score, velocity and pipes. -/
def gGO : Game :=
  { gameState := GameState.gameOver
    score := 4
    highScore := 7
    bird := { x := 100, y := 321, velocityY := 5 }
    pipes := [{ x := 80, topHeight := 60, bottomY := 260, scored := true }]
    frameCount := 12 }

/-- C5 (claim as stated is false): an activate event in `gameOver` does
NOT set the vertical velocity to the impulse constant — the reset puts it
back to the initial 0. -/
theorem C5_counterexample :
    gGO.gameState = GameState.gameOver
    ∧ (jump 600 gGO).bird.velocityY ≠ JUMP_FORCE := by
  with_unfolding_all decide

/-- C5 (amended): in `waiting` an activate event starts playing and sets
the vertical velocity to `JUMP_FORCE`; in `playing` it only sets the
velocity; in `gameOver` it performs a full reset that preserves only
`highScore` and sets the velocity to the initial 0, not to the impulse
constant. -/
theorem C5_theorem (h : ℚ) (g : Game) :
    (g.gameState = GameState.waiting →
       jump h g = { g with gameState := GameState.playing
                           bird := { g.bird with velocityY := JUMP_FORCE } })
    ∧ (g.gameState = GameState.playing →
       jump h g = { g with bird := { g.bird with velocityY := JUMP_FORCE } })
    ∧ (g.gameState = GameState.gameOver →
       jump h g = { initGame h with highScore := g.highScore }
       ∧ (jump h g).bird.velocityY = 0) := by
  refine ⟨?_, ?_, ?_⟩ <;> intro hs <;> simp [jump, hs, resetGame, initGame]

/-- Witness for `C5_theorem` at the concrete state `gGO`. -/
theorem C5_witness :
    jump 600 gGO = { initGame 600 with highScore := gGO.highScore }
    ∧ (jump 600 gGO).bird.velocityY = 0 :=
  (C5_theorem 600 gGO).2.2 rfl

/-- C6: with `screenHeight = 300` the generation range is inverted
(`maxHeight = 300 - 200 - 50 - 100 = -50` is below `minHeight = 50`), yet
nothing rejects the configuration: the component state is constructed as
usual, and at runtime `generatePipe` silently returns a negative gap top
edge (here `-40` for the draw `r = 9/10`). -/
theorem C6_theorem :
    initGame 300
      = { gameState := GameState.waiting
          score := 0
          highScore := 0
          bird := { x := 100, y := 150, velocityY := 0 }
          pipes := []
          frameCount := 0 }
    ∧ (300 : ℚ) - PIPE_GAP - 50 - 100 < 50
    ∧ (generatePipe 400 300 (9 / 10)).topHeight = -40
    ∧ (generatePipe 400 300 (9 / 10)).topHeight < 0 := by
  with_unfolding_all decide

/-- The scoring pass only touches the `scored` flag. -/
lemma scorePipe_fst_fields (bx : ℚ) (p : Pipe) :
    (scorePipe bx p).1.x = p.x
    ∧ (scorePipe bx p).1.topHeight = p.topHeight
    ∧ (scorePipe bx p).1.bottomY = p.bottomY := by
  by_cases hc : (!p.scored && decide (p.x + PIPE_WIDTH < bx)) = true <;>
    simp [scorePipe, hc]

/-- On a playing tick the committed pipes are the advanced, filtered,
possibly extended sequence, after the scoring pass. -/
lemma pipes_of_gameLoop (w h r : ℚ) (g : Game)
    (hplay : g.gameState = GameState.playing) :
    (gameLoop w h r g).pipes
      = (pipesAfterSpawn w h r (g.frameCount + 1) g.pipes).map
          (Prod.fst ∘ scorePipe g.bird.x) := by
  by_cases hcol : checkCollision h (newBirdOf g.bird) g.pipes = true <;>
    simp [gameLoop, hplay, hcol]

/-- Members of the post-spawn sequence either survived the filter or are
the freshly generated pipe. -/
lemma mem_pipesAfterSpawn (w h r : ℚ) (fc : ℕ) (ps : List Pipe) (p : Pipe)
    (hp : p ∈ pipesAfterSpawn w h r fc ps) :
    p ∈ keptPipes ps ∨ p = generatePipe w h r := by
  unfold pipesAfterSpawn at hp
  split at hp
  · rcases List.mem_append.mp hp with h1 | h1
    · exact Or.inl h1
    · exact Or.inr (List.mem_singleton.mp h1)
  · exact Or.inl hp

/-- Every pipe surviving the filter satisfies the filter condition. -/
lemma mem_keptPipes_x (ps : List Pipe) (p : Pipe) (hp : p ∈ keptPipes ps) :
    -PIPE_WIDTH < p.x := by
  have := (List.mem_filter.mp hp).2
  simpa using this

/-- On a playing tick every committed pipe sits strictly right of
`-PIPE_WIDTH` (the filter ensures this for survivors, the spawn position
`w` for the new pipe). -/
lemma gameLoop_pipes_pos (w h r : ℚ) (hw : -PIPE_WIDTH < w) (g : Game)
    (hplay : g.gameState = GameState.playing) :
    ∀ q ∈ (gameLoop w h r g).pipes, -PIPE_WIDTH < q.x := by
  intro q hq
  rw [pipes_of_gameLoop w h r g hplay] at hq
  obtain ⟨p, hp, rfl⟩ := List.mem_map.mp hq
  have hx := (scorePipe_fst_fields g.bird.x p).1
  simp only [Function.comp_apply]
  rw [hx]
  rcases mem_pipesAfterSpawn w h r (g.frameCount + 1) g.pipes p hp with hk | rfl
  · exact mem_keptPipes_x g.pipes p hk
  · simpa [generatePipe] using hw

/-- The pipe-position invariant is preserved by every event. -/
lemma step_pipes_pos (w h : ℚ) (hw : -PIPE_WIDTH < w) (g : Game) (e : Event)
    (hg : ∀ p ∈ g.pipes, -PIPE_WIDTH < p.x) :
    ∀ q ∈ (step w h g e).pipes, -PIPE_WIDTH < q.x := by
  cases e with
  | tick r =>
    by_cases hplay : g.gameState = GameState.playing
    · exact gameLoop_pipes_pos w h r hw g hplay
    · intro q hq
      have hstep : step w h g (Event.tick r) = g := by
        simp [step, gameLoop, hplay]
      rw [hstep] at hq
      exact hg q hq
  | activate =>
    intro q hq
    cases hgs : g.gameState <;> simp [step, jump, hgs, resetGame] at hq <;>
      exact hg q hq
  | reset =>
    intro q hq
    simp [step, resetGame] at hq

/-- The pipe-position invariant holds along any run. -/
lemma runEvents_pipes_pos (w h : ℚ) (hw : -PIPE_WIDTH < w) :
    ∀ (es : List Event) (g : Game), (∀ p ∈ g.pipes, -PIPE_WIDTH < p.x) →
      ∀ q ∈ (runEvents w h g es).pipes, -PIPE_WIDTH < q.x := by
  intro es
  induction es with
  | nil =>
    intro g hg q hq
    exact hg q (by simpa [runEvents] using hq)
  | cons e es ih =>
    intro g hg q hq
    have h1 := step_pipes_pos w h hw g e hg
    exact ih (step w h g e) h1 q (by simpa [runEvents] using hq)

/-- A playing state with one pipe at `x = -57`: the advance moves it to
exactly `-PIPE_WIDTH = -60`. -/
def gC7 : Game :=
  { gameState := GameState.playing
    score := 0
    highScore := 0
    bird := { x := 100, y := 100, velocityY := 0 }
    pipes := [{ x := -57, topHeight := 50, bottomY := 250, scored := false }]
    frameCount := 0 }

/-- C7 (claim as stated is false): a pipe advanced to exactly
`-PIPE_WIDTH` is removed even though its position is NOT less than
`-PIPE_WIDTH` — the filter keeps only strictly greater positions, so the
removal condition is `x ≤ -PIPE_WIDTH`, not `x < -PIPE_WIDTH`. -/
theorem C7_counterexample :
    gC7.gameState = GameState.playing
    ∧ ¬ ((-57 : ℚ) - GAME_SPEED < -PIPE_WIDTH)
    ∧ gC7.pipes ≠ []
    ∧ (gameLoop 400 600 0 gC7).pipes = [] := by
  with_unfolding_all decide

/-- A playing state with one pipe that survives the advance. -/
def gC7w : Game :=
  { gameState := GameState.playing
    score := 0
    highScore := 0
    bird := { x := 100, y := 100, velocityY := 0 }
    pipes := [{ x := 10, topHeight := 50, bottomY := 250, scored := false }]
    frameCount := 0 }

/-- C7 (amended): each advance removes exactly the obstacles whose new
horizontal position is less than OR EQUAL TO `-PIPE_WIDTH`: every pipe
committed by a playing tick sits strictly right of `-PIPE_WIDTH`, and
every pipe whose advanced position is strictly right of `-PIPE_WIDTH` is
retained (with its gap unchanged). Consequently along any run from the
initial state no pipe ever persists at a position `≤ -PIPE_WIDTH` — in
particular none at a position `< -PIPE_WIDTH`. -/
theorem C7_theorem (w h r : ℚ) (g : Game) (es : List Event)
    (hw : -PIPE_WIDTH < w) (hplay : g.gameState = GameState.playing) :
    (∀ q ∈ (gameLoop w h r g).pipes, -PIPE_WIDTH < q.x)
    ∧ (∀ p ∈ g.pipes, -PIPE_WIDTH < p.x - GAME_SPEED →
         ∃ q ∈ (gameLoop w h r g).pipes,
           q.x = p.x - GAME_SPEED ∧ q.topHeight = p.topHeight
           ∧ q.bottomY = p.bottomY)
    ∧ (∀ q ∈ (runEvents w h (initGame h) es).pipes, -PIPE_WIDTH < q.x) := by
  refine ⟨gameLoop_pipes_pos w h r hw g hplay, ?_, ?_⟩
  · intro p hp hx
    rw [pipes_of_gameLoop w h r g hplay]
    set m : Pipe := { p with x := p.x - GAME_SPEED } with hm
    have h1 : m ∈ movedPipes g.pipes := by
      exact List.mem_map.mpr ⟨p, hp, rfl⟩
    have h2 : m ∈ keptPipes g.pipes := by
      refine List.mem_filter.mpr ⟨h1, ?_⟩
      simpa [hm] using hx
    have h3 : m ∈ pipesAfterSpawn w h r (g.frameCount + 1) g.pipes := by
      unfold pipesAfterSpawn
      split
      · exact List.mem_append_left _ h2
      · exact h2
    refine ⟨(scorePipe g.bird.x m).1, List.mem_map.mpr ⟨m, h3, rfl⟩, ?_⟩
    obtain ⟨e1, e2, e3⟩ := scorePipe_fst_fields g.bird.x m
    exact ⟨by rw [e1], by rw [e2], by rw [e3]⟩
  · exact runEvents_pipes_pos w h hw es (initGame h) (by simp [initGame])

/-- Witness for `C7_theorem` at the concrete state `gC7w`. -/
theorem C7_witness :
    ∃ q ∈ (gameLoop 400 600 0 gC7w).pipes,
      q.x = (10 : ℚ) - GAME_SPEED ∧ q.topHeight = 50 ∧ q.bottomY = 250 :=
  (C7_theorem 400 600 0 gC7w [] (by with_unfolding_all decide) rfl).2.1
    { x := 10, topHeight := 50, bottomY := 250, scored := false }
    (by with_unfolding_all decide) (by with_unfolding_all decide)

/-- C8: on a playing, non-colliding tick, when the incremented frame
counter is divisible by 100 exactly one pipe is appended after the
survivors — placed at the leading edge `x = w`, unscored, with
`bottomY = topHeight + PIPE_GAP` and gap top edge inside the generation
range `[50, maxHeight]` for any draw `0 ≤ r ≤ 1` (given `h ≥ 400` so the
range is not degenerate, and a screen wide enough that the new pipe is
not immediately counted as passed); otherwise no pipe is appended and
the committed pipes are exactly the scored survivors. -/
theorem C8_theorem (w h r : ℚ) (g : Game)
    (hplay : g.gameState = GameState.playing)
    (_hnc : checkCollision h (newBirdOf g.bird) g.pipes = false)
    (hr0 : 0 ≤ r) (hr1 : r ≤ 1) (hh : 400 ≤ h)
    (hbx : g.bird.x ≤ w + PIPE_WIDTH) :
    ((g.frameCount + 1) % 100 = 0 →
       (gameLoop w h r g).pipes.length = (keptPipes g.pipes).length + 1
       ∧ (gameLoop w h r g).pipes.getLast? = some (generatePipe w h r)
       ∧ (generatePipe w h r).x = w
       ∧ (generatePipe w h r).scored = false
       ∧ (generatePipe w h r).bottomY = (generatePipe w h r).topHeight + PIPE_GAP
       ∧ 50 ≤ (generatePipe w h r).topHeight
       ∧ (generatePipe w h r).topHeight ≤ h - PIPE_GAP - 50 - 100)
    ∧ ((g.frameCount + 1) % 100 ≠ 0 →
       (gameLoop w h r g).pipes
         = (keptPipes g.pipes).map (Prod.fst ∘ scorePipe g.bird.x)) := by
  have hpipes := pipes_of_gameLoop w h r g hplay
  have hgen : scorePipe g.bird.x (generatePipe w h r) = (generatePipe w h r, 0) := by
    have hno : ¬ ((generatePipe w h r).x + PIPE_WIDTH < g.bird.x) := by
      simp only [generatePipe]
      intro hlt
      exact absurd hlt (by push_neg; linarith)
    simp [scorePipe, hno]
  constructor
  · intro hfc
    have hpost : pipesAfterSpawn w h r (g.frameCount + 1) g.pipes
        = keptPipes g.pipes ++ [generatePipe w h r] := by
      unfold pipesAfterSpawn
      rw [if_pos hfc]
    rw [hpipes, hpost, List.map_append]
    refine ⟨by simp, ?_, rfl, rfl, rfl, ?_, ?_⟩
    · simp [hgen]
    · simp only [generatePipe]
      nlinarith [mul_nonneg hr0 (show (0:ℚ) ≤ h - PIPE_GAP - 50 - 100 - 50 by
        simp only [PIPE_GAP]; linarith)]
    · simp only [generatePipe]
      nlinarith [mul_le_of_le_one_left
        (show (0:ℚ) ≤ h - PIPE_GAP - 50 - 100 - 50 by
          simp only [PIPE_GAP]; linarith) hr1]
  · intro hfc
    have hpost : pipesAfterSpawn w h r (g.frameCount + 1) g.pipes
        = keptPipes g.pipes := by
      unfold pipesAfterSpawn
      rw [if_neg hfc]
    rw [hpipes, hpost]

/-- A playing state one frame before the spawn threshold. -/
def gC8w : Game :=
  { gameState := GameState.playing
    score := 0
    highScore := 0
    bird := { x := 100, y := 100, velocityY := 0 }
    pipes := []
    frameCount := 99 }

/-- Witness for `C8_theorem` at the concrete state `gC8w`. -/
theorem C8_witness :
    (gameLoop 400 600 (1/2) gC8w).pipes.length = (keptPipes gC8w.pipes).length + 1 :=
  ((C8_theorem 400 600 (1/2) gC8w rfl (by with_unfolding_all decide)
      (by with_unfolding_all decide) (by with_unfolding_all decide)
      (by with_unfolding_all decide) (by with_unfolding_all decide)).1
    (by decide)).1

/-- No single event ever lowers the high score. -/
lemma highScore_le_step (w h : ℚ) (g : Game) (e : Event) :
    g.highScore ≤ (step w h g e).highScore := by
  cases e with
  | tick r =>
    by_cases hplay : g.gameState = GameState.playing
    · by_cases hcol : checkCollision h (newBirdOf g.bird) g.pipes = true
      · simp [step, gameLoop, hplay, hcol]
        split <;> omega
      · simp [step, gameLoop, hplay, hcol]
    · simp [step, gameLoop, hplay]
  | activate =>
    cases hgs : g.gameState <;> simp [step, jump, hgs, resetGame]
  | reset =>
    simp [step, resetGame]

/-- No run of events ever lowers the high score. -/
lemma highScore_le_run (w h : ℚ) :
    ∀ (es : List Event) (g : Game),
      g.highScore ≤ (runEvents w h g es).highScore := by
  intro es
  induction es with
  | nil => intro g; simp [runEvents]
  | cons e es ih =>
    intro g
    calc g.highScore ≤ (step w h g e).highScore := highScore_le_step w h g e
      _ ≤ (runEvents w h (step w h g e) es).highScore := ih (step w h g e)
      _ = (runEvents w h g (e :: es)).highScore := by simp [runEvents]

/-- A colliding playing state used by the C9 witness. -/
def gC9 : Game :=
  { gameState := GameState.playing
    score := 5
    highScore := 3
    bird := { x := 100, y := 500, velocityY := 0 }
    pipes := []
    frameCount := 0 }

/-- C9: the high score never decreases along any run of ticks, activate
events and resets; a reset rebuilds the fresh initial state except for
the high score, which is the only surviving field; and on the tick that
transitions into `gameOver` the high score becomes the pre-tick score
exactly when that score exceeds it, and is otherwise untouched. -/
theorem C9_theorem (w h r : ℚ) (es : List Event) (g gc : Game)
    (hplay : gc.gameState = GameState.playing)
    (hcol : checkCollision h (newBirdOf gc.bird) gc.pipes = true) :
    g.highScore ≤ (runEvents w h g es).highScore
    ∧ resetGame h g = { initGame h with highScore := g.highScore }
    ∧ (gc.score > gc.highScore → (gameLoop w h r gc).highScore = gc.score)
    ∧ (¬ gc.score > gc.highScore → (gameLoop w h r gc).highScore = gc.highScore) := by
  refine ⟨highScore_le_run w h es g, by simp [resetGame, initGame], ?_, ?_⟩
  · intro hgt
    simp [gameLoop, hplay, hcol, hgt]
  · intro hle
    simp [gameLoop, hplay, hcol, hle]

/-- Witness for `C9_theorem` at the concrete state `gC9`. -/
theorem C9_witness :
    (gameLoop 400 600 0 gC9).highScore = gC9.score :=
  (C9_theorem 400 600 0 [Event.tick 0] (initGame 600) gC9 rfl
      (by with_unfolding_all decide)).2.2.1 (by decide)

/-- C10: an activate event in `waiting` or `playing` changes only the
vertical velocity (set to `JUMP_FORCE`) and, from `waiting`, the phase;
both position coordinates of the body, the pipe sequence, the score, the
high score and the frame counter are untouched, and the resulting phase
is `playing` in both cases. -/
theorem C10_theorem (h : ℚ) (g : Game)
    (hs : g.gameState = GameState.waiting ∨ g.gameState = GameState.playing) :
    (jump h g).bird.velocityY = JUMP_FORCE
    ∧ (jump h g).bird.x = g.bird.x
    ∧ (jump h g).bird.y = g.bird.y
    ∧ (jump h g).pipes = g.pipes
    ∧ (jump h g).score = g.score
    ∧ (jump h g).highScore = g.highScore
    ∧ (jump h g).frameCount = g.frameCount
    ∧ (g.gameState = GameState.waiting → (jump h g).gameState = GameState.playing)
    ∧ (g.gameState = GameState.playing → (jump h g).gameState = GameState.playing) := by
  rcases hs with hs | hs <;> simp [jump, hs]

/-- Witness for `C10_theorem` at the fresh initial state. -/
theorem C10_witness :
    (jump 600 (initGame 600)).bird.velocityY = JUMP_FORCE
    ∧ (jump 600 (initGame 600)).bird.x = (initGame 600).bird.x
    ∧ (jump 600 (initGame 600)).bird.y = (initGame 600).bird.y
    ∧ (jump 600 (initGame 600)).pipes = (initGame 600).pipes
    ∧ (jump 600 (initGame 600)).score = (initGame 600).score
    ∧ (jump 600 (initGame 600)).highScore = (initGame 600).highScore
    ∧ (jump 600 (initGame 600)).frameCount = (initGame 600).frameCount
    ∧ ((initGame 600).gameState = GameState.waiting →
        (jump 600 (initGame 600)).gameState = GameState.playing)
    ∧ ((initGame 600).gameState = GameState.playing →
        (jump 600 (initGame 600)).gameState = GameState.playing) :=
  C10_theorem 600 (initGame 600) (Or.inl rfl)
